import Mathlib

/-!
Shallow embedding of `src/analysis_engine/plot_trading_history.py`
(`plot_trading_history`): selecting up to four named series, resolving
colors, filtering rows by start date / predicate / dropna, composing a
primary axis plus twin axes, building the legend, and packaging the
result envelope.  Machine floats never matter for the verified claims,
so numeric cells are modelled as `Int`; missing values (`NaN`) are the
explicit cell `Cell.na`.  Python exceptions are modelled as
`Except.error`; a normal return is `Except.ok`.
-/

namespace PlotTradingHistory

/-- One cell of the dataframe: either a missing value (`NaN`) or a value. -/
inductive Cell where
  | na : Cell
  | val : Int → Cell
deriving DecidableEq, Repr

/-- A `pandas.DataFrame`: named columns and rows.  Each row keeps its
original pandas index (the `Nat` component), because boolean-mask
filtering aligns on the original index, and carries one cell per column
of `cols`, in order. -/
structure DataFrame where
  cols : List String
  rows : List (Nat × List Cell)
deriving DecidableEq, Repr

/-- Index of the first column named `c`, as pandas column lookup does. -/
def findCol (cols : List String) (c : String) : Option Nat :=
  match cols with
  | [] => none
  | x :: rest => if x = c then some 0 else (findCol rest c).map (fun i => i + 1)

/-- Column lookup `df[c]`; raises `KeyError` when the column is absent. -/
def colIdxE (df : DataFrame) (c : String) : Except String Nat :=
  match findCol df.cols c with
  | some i => Except.ok i
  | none => Except.error ("KeyError: " ++ c)

/-- Indices of every requested column, failing on the first absent one,
as `df[column_list]` does. -/
def colIdxsE (cols : List String) : List String → Except String (List Nat)
  | [] => Except.ok []
  | c :: rest =>
    match findCol cols c with
    | none => Except.error ("KeyError: " ++ c)
    | some i => (colIdxsE cols rest).map (fun is => i :: is)

/-- Projection `df[column_list]`: keep the requested columns (first
occurrence wins for a duplicated name), preserving row order and the
original row index. -/
def DataFrame.select (df : DataFrame) (cs : List String) : Except String DataFrame :=
  (colIdxsE df.cols cs).map (fun idxs =>
    { cols := cs
      rows := df.rows.map (fun r => (r.1, idxs.map (fun j => r.2.getD j Cell.na))) })

/-- Date-cutoff comparison `df[date_col] >= start_date_value`: a missing
date (`NaT`) compares `False`, so the row is dropped. -/
def cellGE (c : Cell) (v : Int) : Bool :=
  match c with
  | Cell.na => false
  | Cell.val x => v ≤ x

/-- Row filter `df[(df[date_col] >= v)]`; `KeyError` when `date_col` is
absent from `df`. -/
def DataFrame.filterDateGE (df : DataFrame) (dateCol : String) (v : Int) :
    Except String DataFrame :=
  (colIdxE df dateCol).map (fun j =>
    { cols := df.cols
      rows := df.rows.filter (fun r => cellGE (r.2.getD j Cell.na) v) })

/-- Boolean-mask filtering `use_df[df_filter]`: keep the rows whose
original pandas index is selected by the mask. -/
def DataFrame.applyMask (df : DataFrame) (m : List Bool) : DataFrame :=
  { cols := df.cols
    rows := df.rows.filter (fun r => m.getD r.1 false) }

/-- `use_df.dropna(axis=0, how='any')`: drop every row holding a missing
value in any current column. -/
def DataFrame.dropna (df : DataFrame) : DataFrame :=
  { cols := df.cols
    rows := df.rows.filter (fun r =>
      r.2.all (fun c => match c with | Cell.na => false | Cell.val _ => true)) }

/-- Cell of a row under a column name, `Cell.na` when the column is
absent (used only to state properties, not by the embedded code). -/
def DataFrame.cellAt (df : DataFrame) (c : String) (cells : List Cell) : Cell :=
  match findCol df.cols c with
  | some i => cells.getD i Cell.na
  | none => Cell.na

/-- The `df_filter` argument: a pandas-like object that may or may not
expose a `to_json` attribute (`hasattr(df_filter, 'to_json')`), carrying
a boolean row mask aligned with the original dataframe index. -/
structure DfFilter where
  has_to_json : Bool
  mask : List Bool
deriving DecidableEq, Repr

/-- Numeric value of one decimal digit character. -/
def digitVal (c : Char) : Option Nat :=
  if c.isDigit then some (c.toNat - 48) else none

/-- Decimal value of a digit string, `none` when any character is not a
digit. -/
def digitsVal (cs : List Char) : Option Nat :=
  cs.foldl
    (fun acc c =>
      match acc, digitVal c with
      | some a, some d => some (a * 10 + d)
      | _, _ => none)
    (some 0)

/-- Modelled from the spec: `datetime.datetime.strptime(start_date,
ae_consts.COMMON_TICK_DATE_FORMAT)` — the format constant lives in
`analysis_engine.consts`, outside `src/`, and the spec fixes it as
`YYYY-MM-DD HH:MM:SS`.  Malformed input is a fatal parse error; a
well-formed timestamp maps to an integer that respects the
chronological order. -/
def parseTickDate (s : String) : Except String Int :=
  let cs := s.toList
  match digitsVal [cs.getD 0 'x', cs.getD 1 'x', cs.getD 2 'x', cs.getD 3 'x'],
      digitsVal [cs.getD 5 'x', cs.getD 6 'x'],
      digitsVal [cs.getD 8 'x', cs.getD 9 'x'],
      digitsVal [cs.getD 11 'x', cs.getD 12 'x'],
      digitsVal [cs.getD 14 'x', cs.getD 15 'x'],
      digitsVal [cs.getD 17 'x', cs.getD 18 'x'] with
  | some yr, some mo, some dy, some hr, some mi, some se =>
    if cs.length = 19 ∧ cs.getD 4 'x' = '-' ∧ cs.getD 7 'x' = '-' ∧
        cs.getD 10 'x' = ' ' ∧ cs.getD 13 'x' = ':' ∧ cs.getD 16 'x' = ':' ∧
        1 ≤ mo ∧ mo ≤ 12 ∧ 1 ≤ dy ∧ dy ≤ 31 ∧ hr ≤ 23 ∧ mi ≤ 59 ∧ se ≤ 59 then
      Except.ok (Int.ofNat (((((yr * 13 + mo) * 32 + dy) * 24 + hr) * 60 + mi) * 60 + se))
    else
      Except.error ("ValueError: time data " ++ s ++ " does not match format")
  | _, _, _, _, _, _ =>
    Except.error ("ValueError: time data " ++ s ++ " does not match format")

/-- Modelled from the spec: the status constants of
`analysis_engine.consts` used by the envelope (outside `src/`). -/
inductive Status where
  | NOT_RUN : Status
  | SUCCESS : Status
  | FAILED : Status
deriving DecidableEq, Repr

/-- Modelled from the spec: the fixed default palette
`ae_consts.PLOT_COLORS` keyed by the series' semantic slot (outside
`src/`); only its keyed-lookup shape matters to the claims. -/
def PLOT_COLORS (slot : String) : String :=
  "#palette-" ++ slot

/-- Python truthiness of an optional string argument: `None` and the
empty string are falsy. -/
def truthy (o : Option String) : Bool :=
  match o with
  | none => false
  | some s => !s.isEmpty

/-- Color resolution `use_red = red_color; if not use_red: use_red =
ae_consts.PLOT_COLORS['red']` — a falsy explicit color falls back to the
slot's palette entry. -/
def pickColor (explicit : Option String) (slot : String) : String :=
  match explicit with
  | none => PLOT_COLORS slot
  | some c => if c.isEmpty then PLOT_COLORS slot else c

/-- One entry of `all_plots`: a column name with its resolved color. -/
structure PlotNode where
  column : String
  color : String
deriving DecidableEq, Repr

/-- The appended part of `column_list`: each truthy slot contributes its
column name, in the fixed red, blue, green, orange order. -/
def selectedCols (red blue green orange : Option String) : List String :=
  (if truthy red then [red.getD ""] else [])
    ++ (if truthy blue then [blue.getD ""] else [])
    ++ (if truthy green then [green.getD ""] else [])
    ++ (if truthy orange then [orange.getD ""] else [])

/-- `column_list = [date_col]` followed by the appends of lines 151-174. -/
def buildColumnList (dateCol : String) (red blue green orange : Option String) :
    List String :=
  dateCol :: selectedCols red blue green orange

/-- `all_plots` of lines 154-174: one node per truthy slot, carrying the
resolved color. -/
def buildAllPlots (red blue green orange : Option String)
    (red_color blue_color green_color orange_color : Option String) : List PlotNode :=
  (if truthy red then [{ column := red.getD "", color := pickColor red_color "red" }] else [])
    ++ (if truthy blue then [{ column := blue.getD "", color := pickColor blue_color "blue" }] else [])
    ++ (if truthy green then [{ column := green.getD "", color := pickColor green_color "green" }] else [])
    ++ (if truthy orange then [{ column := orange.getD "", color := pickColor orange_color "orange" }] else [])

/-- Start-date branch of lines 177-182:
`use_df = df[(df[date_col] >= start_date_value)][column_list]`. -/
def startDateStep (df : DataFrame) (dateCol : String) (columnList : List String)
    (v : Int) : Except String DataFrame := do
  let f ← df.filterDateGE dateCol v
  f.select columnList

/-- Lines 176-182: `use_df = df`, replaced by the start-date cutoff and
projection when `start_date` is supplied (parsing first, so a malformed
string aborts before any filtering). -/
def startStep (df : DataFrame) (dateCol : String) (columnList : List String)
    (start_date : Option String) : Except String DataFrame :=
  match start_date with
  | some s => do
    let v ← parseTickDate s
    startDateStep df dateCol columnList v
  | none => pure df

/-- Lines 191-192: the boolean-mask filter and re-projection, applied
only when the filter object exposes `to_json`. -/
def maskStep (u0 : DataFrame) (columnList : List String)
    (df_filter : Option DfFilter) : Except String DataFrame :=
  match df_filter with
  | some flt =>
    if flt.has_to_json then (u0.applyMask flt.mask).select columnList
    else pure u0
  | none => pure u0

/-- Lines 201-204: drop rows with any missing value when
`dropna_for_all` is set. -/
def dropnaStep (u1 : DataFrame) (dropna_for_all : Bool) : DataFrame :=
  if dropna_for_all then u1.dropna else u1

/-- The dataframe scrubbing of lines 176-205: start-date cutoff, then
the optional boolean-mask filter (applied only when the filter object
exposes `to_json`), then the optional dropna. -/
def filterPipeline (df : DataFrame) (dateCol : String) (columnList : List String)
    (start_date : Option String) (df_filter : Option DfFilter)
    (dropna_for_all : Bool) : Except String DataFrame := do
  let u0 ← startStep df dateCol columnList start_date
  let u1 ← maskStep u0 columnList df_filter
  pure (dropnaStep u1 dropna_for_all)

/-- One `matplotlib` line handle; only its legend label matters here. -/
structure Line where
  label : String
deriving DecidableEq, Repr

/-- One rendering surface (`ax` or an `ax.twinx()` twin): its creation
index (0 = primary), the line handles drawn on it, and its y-limits. -/
structure AxisHandle where
  idx : Nat
  lines : List Line
  ylim : Int × Int
deriving DecidableEq, Repr

/-- Modelled from the spec: the rendering collaborator's auto-computed
y-limits for the data drawn on an axis (matplotlib auto-scaling, outside
this core).  Missing values are ignored; an axis with no finite data
keeps matplotlib's default limits `(0, 1)`. -/
def autoYlim (vals : List Int) : Int × Int :=
  match vals with
  | [] => (0, 1)
  | v :: vs => (vs.foldl min v, vs.foldl max v)

/-- Numeric values of column `j` down the rows, missing cells dropped. -/
def colVals (rows : List (Nat × List Cell)) (j : Nat) : List Int :=
  rows.filterMap (fun r =>
    match r.2.getD j Cell.na with
    | Cell.na => none
    | Cell.val v => some v)

/-- One iteration of the plotting loop (lines 219-269) for series
`idx`: look up `use_df[[date_col, column_name]]` (a `KeyError` on either
absent column aborts the call), draw the series — a solid linestyle adds
one line handle labelled by the column, a bar plot adds none — and fix
the y-limits: a secondary axis (`idx > 0`) with `scale_y` set becomes
`[0, auto_upper * 3]`, anything else keeps the auto limits. -/
def mkAxis (use_df : DataFrame) (dateCol linestyle : String) (scale_y : Bool)
    (idx : Nat) (node : PlotNode) : Except String AxisHandle := do
  let _ ← colIdxE use_df dateCol
  let j ← colIdxE use_df node.column
  let auto := autoYlim (colVals use_df.rows j)
  pure
    { idx := idx
      lines := if linestyle = "-" then [{ label := node.column }] else []
      ylim := if 0 < idx ∧ scale_y then (0, 3 * auto.2) else auto }

/-- The plotting loop `for idx, node in enumerate(all_plots)`, carrying
the running index. -/
def composeAxesFrom (use_df : DataFrame) (dateCol linestyle : String)
    (scale_y : Bool) : Nat → List PlotNode → Except String (List AxisHandle)
  | _, [] => Except.ok []
  | i, node :: rest => do
    let a ← mkAxis use_df dateCol linestyle scale_y i node
    let tl ← composeAxesFrom use_df dateCol linestyle scale_y (i + 1) rest
    pure (a :: tl)

/-- `all_axes` after the plotting loop, in creation order. -/
def composeAxes (use_df : DataFrame) (dateCol linestyle : String) (scale_y : Bool)
    (nodes : List PlotNode) : Except String (List AxisHandle) :=
  composeAxesFrom use_df dateCol linestyle scale_y 0 nodes

/-- The first-seen deduplication loop of lines 272-276: walk the
handle/label pairs once, keep a pair only the first time its label text
is seen. -/
def dedupHandles (pairs : List (Line × String)) : List String × List Line :=
  pairs.foldl
    (fun acc hl =>
      if hl.2 ∈ acc.1 then acc else (acc.1 ++ [hl.2], acc.2 ++ [hl.1]))
    ([], [])

/-- The composed figure handle; it carries the legend attached to the
primary axis (the label list passed to `ax.legend` at lines 286-290). -/
structure Fig where
  legend : List String
deriving DecidableEq, Repr

/-- Modelled from the spec: the envelope built by
`build_result.build_result` (outside `src/`) — status, error, and the
`rec` payload `ax1..ax4` / `fig`. -/
structure Envelope where
  status : Status
  err : Option String
  ax1 : Option AxisHandle
  ax2 : Option AxisHandle
  ax3 : Option AxisHandle
  ax4 : Option AxisHandle
  fig : Option Fig
deriving DecidableEq, Repr

/-- A normal return of `plot_trading_history`: the envelope plus the
observable display effect — how many times the figure was shown
(`plt.show()` calls). -/
structure PlotOutput where
  env : Envelope
  shows : Nat
deriving DecidableEq, Repr

/-- `plot_trading_history` (lines 16-320), restricted to the arguments
the core logic reads.  `title`, axis labels, width/height, date tick
format and the footnote are passed through to the excluded rendering
collaborators and touch no claim.  Python exceptions propagate as
`Except.error`; the function body contains no handler, so every fatal
condition aborts the call. -/
def plot_trading_history (df : DataFrame)
    (red red_color blue blue_color green green_color orange orange_color : Option String)
    (date_col linestyle : String)
    (df_filter : Option DfFilter) (start_date : Option String)
    (scale_y show_plot dropna_for_all : Bool) : Except String PlotOutput := do
  let column_list := buildColumnList date_col red blue green orange
  let all_plots := buildAllPlots red blue green orange
    red_color blue_color green_color orange_color
  let use_df ← filterPipeline df date_col column_list start_date df_filter dropna_for_all
  let all_axes ← composeAxes use_df date_col linestyle scale_y all_plots
  -- Lines 271-276: dedup of the current axes' handle/label pairs.  The
  -- result is bound to `newLabels`/`newHandles` and never used again:
  -- the legend below is built from the raw `lines` list instead.
  let gcaLines := (all_axes.getLast?.map AxisHandle.lines).getD []
  let _newLabelsHandles := dedupHandles (gcaLines.map (fun l => (l, l.label)))
  -- Lines 278-281: collect every axis's lines; `rec['ax{idx+1}']` is
  -- assigned `use_ax`, the loop variable left over from the plotting
  -- loop — the last-created axis — for every populated slot.
  let lines := (all_axes.map AxisHandle.lines).flatten
  let lastAx := all_axes.getLast?
  let k := all_axes.length
  -- Lines 286-290: the legend on the primary axis, from `lines` and
  -- their labels.
  let fig : Fig := { legend := lines.map Line.label }
  -- Lines 307-311: `plt.show()` unconditionally, then once more when
  -- `show_plot` is set (the `else` branch is `plt.plot()`, not a show).
  let shows := 1 + (if show_plot then 1 else 0)
  -- Lines 313-320: rec['fig'] and the SUCCESS envelope.
  let env : Envelope :=
    { status := Status.SUCCESS
      err := none
      ax1 := if 1 ≤ k then lastAx else none
      ax2 := if 2 ≤ k then lastAx else none
      ax3 := if 3 ≤ k then lastAx else none
      ax4 := if 4 ≤ k then lastAx else none
      fig := some fig }
  pure { env := env, shows := shows }

/-- Rescaling applied by the `scale_y` flag to an already-composed axis:
a secondary axis gets y-limits `[0, 3 * upper]`, the primary axis is
untouched (used to relate runs with the flag set and unset). -/
def scaleAxByIdx (a : AxisHandle) : AxisHandle :=
  if 0 < a.idx then { a with ylim := (0, 3 * a.ylim.2) } else a

/-- Lower bound property produced by the start-date cutoff: every row's
date cell is a present value at or after `v`. -/
def dateLB (v : Int) (dc : String) (d : DataFrame) : Prop :=
  ∀ row ∈ d.rows, ∃ x : Int, d.cellAt dc row.2 = Cell.val x ∧ v ≤ x

/-- Concrete three-row trading-history dataset used by the concrete
evaluations: dates 1, 2, 3; `close` 10, 20, 30; `volume` 100, NaN, 300. -/
def dfA : DataFrame :=
  { cols := ["date", "close", "volume"]
    rows := [(0, [Cell.val 1, Cell.val 10, Cell.val 100]),
             (1, [Cell.val 2, Cell.val 20, Cell.na]),
             (2, [Cell.val 3, Cell.val 30, Cell.val 300])] }

/-- Two-row dataset whose series column goes negative, exercising the
forced-to-zero lower limit. -/
def dfNeg : DataFrame :=
  { cols := ["date", "x"]
    rows := [(0, [Cell.val 1, Cell.val (-5)]), (1, [Cell.val 2, Cell.val 10])] }

/-- Dataset whose dates straddle the parsed value of
`2020-01-05 00:00:00`. -/
def dfC6 : DataFrame :=
  { cols := ["date", "close"]
    rows := [(0, [Cell.val 72606844799, Cell.val 10]),
             (1, [Cell.val 72606844800, Cell.val 20]),
             (2, [Cell.val 72606844801, Cell.val 30])] }

/-- Output of the concrete start-date filtering run over `dfC6`. -/
def dfC6out : DataFrame :=
  { cols := ["date", "close"]
    rows := [(1, [Cell.val 72606844800, Cell.val 20]),
             (2, [Cell.val 72606844801, Cell.val 30])] }

/-- The output of the successful one-series run used as the C9 witness. -/
def outC9 : PlotOutput :=
  { env :=
      { status := Status.SUCCESS
        err := none
        ax1 := some { idx := 0, lines := [{ label := "close" }], ylim := (10, 30) }
        ax2 := none
        ax3 := none
        ax4 := none
        fig := some { legend := ["close"] } }
    shows := 2 }

/-- Two-series plot list used by the concrete scale-y run. -/
def nodesW : List PlotNode :=
  [{ column := "close", color := "a" }, { column := "volume", color := "b" }]

/-- Axes of the concrete run with `scale_y` set. -/
def axsWT : List AxisHandle :=
  [{ idx := 0, lines := [{ label := "close" }], ylim := (10, 30) },
   { idx := 1, lines := [{ label := "volume" }], ylim := (0, 900) }]

/-- Axes of the concrete run with `scale_y` unset. -/
def axsWF : List AxisHandle :=
  [{ idx := 0, lines := [{ label := "close" }], ylim := (10, 30) },
   { idx := 1, lines := [{ label := "volume" }], ylim := (100, 300) }]

/-- The scaled secondary axis of the `dfNeg` run. -/
def axN10T : AxisHandle :=
  { idx := 1, lines := [{ label := "x" }], ylim := (0, 30) }

/-- The unscaled secondary axis of the `dfNeg` run. -/
def axN10F : AxisHandle :=
  { idx := 1, lines := [{ label := "x" }], ylim := (-5, 10) }

theorem exceptBind_ok {α β : Type} (a : α) (f : α → Except String β) :
    (Except.ok a >>= f) = f a := rfl

theorem exceptBind_err {α β : Type} (e : String) (f : α → Except String β) :
    ((Except.error e : Except String α) >>= f) = Except.error e := rfl

theorem exceptPure {α : Type} (a : α) :
    (pure a : Except String α) = Except.ok a := rfl

/-- C1, counterexample: with the malformed start date `"bad"` the call
does not return a FAILED envelope — the parse error propagates to the
caller as an exception (the function body has no handler). -/
theorem c1_counterexample :
    plot_trading_history dfA (some "close") none none none none none none none
        "date" "-" none (some "bad") false true false
      = Except.error "ValueError: time data bad does not match format" := by
  rfl

/-- C2, code bug: for `red = blue = "close"` the legend attached to the
primary axis holds the duplicate label list `["close", "close"]`, while
the first-seen deduplication of lines 272-276 — whose result the code
computes and then discards — would have kept a single entry. -/
theorem c2_bug_legend_keeps_duplicates :
    (plot_trading_history dfA (some "close") none (some "close") none none none
          none none "date" "-" none none false true false).toOption.map
        (fun o => o.env.fig.map Fig.legend)
      = some (some ["close", "close"]) ∧
    ¬ (["close", "close"] : List String).Nodup ∧
    dedupHandles [({ label := "close" }, "close"), ({ label := "close" }, "close")]
      = (["close"], [{ label := "close" }]) :=
  ⟨rfl, by decide, rfl⟩

/-- C3, code bug: with two selected series the envelope's `ax1` and
`ax2` both hold the last-created axis (creation index 1) — line 281
assigns the stale loop variable `use_ax` instead of `cur_ax`, so the
slot for series index 0 does not hold the axis created for it. -/
theorem c3_bug_slots_get_last_axis :
    (plot_trading_history dfA (some "close") none (some "volume") none none none
          none none "date" "-" none none false true false).toOption.map
        (fun o => (o.env.ax1, o.env.ax2, o.env.ax3, o.env.ax4))
      = some (some { idx := 1, lines := [{ label := "volume" }], ylim := (100, 300) },
              some { idx := 1, lines := [{ label := "volume" }], ylim := (100, 300) },
              none, none) ∧
    composeAxes dfA "date" "-" false
        (buildAllPlots (some "close") (some "volume") none none none none none none)
      = Except.ok [{ idx := 0, lines := [{ label := "close" }], ylim := (10, 30) },
                   { idx := 1, lines := [{ label := "volume" }], ylim := (100, 300) }] :=
  ⟨rfl, rfl⟩

/-- C4, code bug: the figure is displayed twice when `show_plot` is set
(`plt.show()` runs unconditionally at line 307 and again at line 309)
and once — not zero times — when it is unset. -/
theorem c4_bug_double_show :
    (plot_trading_history dfA (some "close") none none none none none none none
          "date" "-" none none false true false).toOption.map PlotOutput.shows
      = some 2 ∧
    (plot_trading_history dfA (some "close") none none none none none none none
          "date" "-" none none false false false).toOption.map PlotOutput.shows
      = some 1 :=
  ⟨rfl, rfl⟩

/-- C5, counterexample: when two slots name the same column the produced
column list contains that name twice, so it is not duplicate-free and
the selected column does not appear exactly once. -/
theorem c5_counterexample :
    buildColumnList "date" (some "x") (some "x") none none = ["date", "x", "x"] ∧
    ¬ (["date", "x", "x"] : List String).Nodup ∧
    (["date", "x", "x"] : List String).count "x" = 2 := by
  decide

/-- C5, amended: the column list always begins with the date column and
appends the selected slots' columns in slot order; whenever the selected
names are pairwise distinct and none equals the date column, each
selected column appears exactly once and the list has no duplicates. -/
theorem c5_amended_nodup (dateCol : String) (r b g o : Option String)
    (h1 : (selectedCols r b g o).Nodup) (h2 : dateCol ∉ selectedCols r b g o) :
    (buildColumnList dateCol r b g o).head? = some dateCol ∧
    (buildColumnList dateCol r b g o).Nodup ∧
    ∀ c ∈ selectedCols r b g o, (buildColumnList dateCol r b g o).count c = 1 := by
  refine ⟨rfl, List.nodup_cons.mpr ⟨h2, h1⟩, ?_⟩
  intro c hc
  have hne : c ≠ dateCol := fun e => h2 (e ▸ hc)
  rw [buildColumnList, List.count_cons_of_ne hne]
  exact List.count_eq_one_of_mem h1 hc

/-- C5, witness: two distinct selected columns under a distinct date
column satisfy the amended statement. -/
theorem c5_amended_nodup_witness :
    (selectedCols (some "x") (some "y") none none).Nodup ∧
    "date" ∉ selectedCols (some "x") (some "y") none none ∧
    ((buildColumnList "date" (some "x") (some "y") none none).head? = some "date" ∧
     (buildColumnList "date" (some "x") (some "y") none none).Nodup ∧
     ∀ c ∈ selectedCols (some "x") (some "y") none none,
       (buildColumnList "date" (some "x") (some "y") none none).count c = 1) :=
  ⟨by decide, by decide,
   c5_amended_nodup "date" (some "x") (some "y") none none (by decide) (by decide)⟩

/-- C8: a `df_filter` object that does not expose `to_json` is silently
skipped — line 191 guards the predicate step with
`hasattr(df_filter, 'to_json')` — so the pipeline behaves exactly as if
no predicate had been supplied. -/
theorem c8_filter_skipped_without_to_json (df : DataFrame) (dateCol : String)
    (columnList : List String) (sd : Option String) (flt : DfFilter)
    (dropna_for_all : Bool) (h : flt.has_to_json = false) :
    filterPipeline df dateCol columnList sd (some flt) dropna_for_all
      = filterPipeline df dateCol columnList sd none dropna_for_all := by
  have hm : ∀ u0 : DataFrame, maskStep u0 columnList (some flt)
      = maskStep u0 columnList none := by
    intro u0
    simp [maskStep, h]
  simp only [filterPipeline]
  cases hs : startStep df dateCol columnList sd with
  | error e => rw [exceptBind_err, exceptBind_err]
  | ok u0 => rw [exceptBind_ok, exceptBind_ok, hm]

/-- C8, witness: a truthy mask object lacking `to_json` leaves the
pipeline output identical to the one with no predicate at all. -/
theorem c8_filter_skipped_without_to_json_witness :
    (({ has_to_json := false, mask := [true] } : DfFilter).has_to_json = false) ∧
    filterPipeline dfA "date" ["date"] none
        (some { has_to_json := false, mask := [true] }) false
      = filterPipeline dfA "date" ["date"] none none false :=
  ⟨rfl, c8_filter_skipped_without_to_json dfA "date" ["date"] none
    { has_to_json := false, mask := [true] } false rfl⟩

/-- C9: whenever `plot_trading_history` returns without raising, the
envelope's status is SUCCESS (hence neither NOT_RUN nor FAILED), its
error field is empty and its figure handle is set: the only return
statement rebuilds the envelope at lines 315-320 after assigning
`rec['fig']`. -/
theorem c9_success_envelope (df : DataFrame)
    (r rc b bc g gc o oc : Option String) (dc ls : String)
    (flt : Option DfFilter) (sd : Option String) (sy sp dn : Bool) (out : PlotOutput)
    (h : plot_trading_history df r rc b bc g gc o oc dc ls flt sd sy sp dn
      = Except.ok out) :
    out.env.status = Status.SUCCESS ∧ out.env.status ≠ Status.NOT_RUN ∧
    out.env.status ≠ Status.FAILED ∧ out.env.err = none ∧ out.env.fig ≠ none := by
  simp only [plot_trading_history] at h
  cases hf : filterPipeline df dc (buildColumnList dc r b g o) sd flt dn with
  | error e =>
    rw [hf] at h
    rw [exceptBind_err] at h
    exact Except.noConfusion h
  | ok u =>
    rw [hf] at h
    rw [exceptBind_ok] at h
    cases hc : composeAxes u dc ls sy (buildAllPlots r b g o rc bc gc oc) with
    | error e =>
      rw [hc] at h
      rw [exceptBind_err] at h
      exact Except.noConfusion h
    | ok axs =>
      rw [hc] at h
      rw [exceptBind_ok, exceptPure] at h
      injection h with h
      subst h
      simp

/-- C1, amended: the call returns `Except.error` exactly when a fatal
condition occurs — the filtering pipeline fails (malformed start date or
a column lookup failure there) or the axis composition fails (a series
or date column absent when drawing); the error is propagated verbatim,
and no envelope is produced in that case. -/
theorem c1_amended_fatal_errors_propagate (df : DataFrame)
    (r rc b bc g gc o oc : Option String) (dc ls : String)
    (flt : Option DfFilter) (sd : Option String) (sy sp dn : Bool) (e : String) :
    plot_trading_history df r rc b bc g gc o oc dc ls flt sd sy sp dn
        = Except.error e
      ↔ (filterPipeline df dc (buildColumnList dc r b g o) sd flt dn
            = Except.error e
          ∨ ∃ u, filterPipeline df dc (buildColumnList dc r b g o) sd flt dn
                = Except.ok u
              ∧ composeAxes u dc ls sy (buildAllPlots r b g o rc bc gc oc)
                = Except.error e) := by
  simp only [plot_trading_history]
  cases hf : filterPipeline df dc (buildColumnList dc r b g o) sd flt dn with
  | error e0 =>
    rw [exceptBind_err]
    constructor
    · intro h
      injection h with h
      subst h
      exact Or.inl rfl
    · rintro (h | ⟨u, hu, hcu⟩)
      · injection h with h
        subst h
        rfl
      · exact Except.noConfusion hu
  | ok u0 =>
    rw [exceptBind_ok]
    cases hc : composeAxes u0 dc ls sy (buildAllPlots r b g o rc bc gc oc) with
    | error e1 =>
      rw [exceptBind_err]
      constructor
      · intro h
        injection h with h
        subst h
        exact Or.inr ⟨u0, rfl, hc⟩
      · rintro (h | ⟨u, hu, hcu⟩)
        · exact Except.noConfusion h
        · injection hu with hu
          subst hu
          rw [hc] at hcu
          injection hcu with hcu
          subst hcu
          rfl
    | ok axs =>
      rw [exceptBind_ok, exceptPure]
      constructor
      · intro h
        exact Except.noConfusion h
      · rintro (h | ⟨u, hu, hcu⟩)
        · exact Except.noConfusion h
        · injection hu with hu
          subst hu
          rw [hc] at hcu
          exact Except.noConfusion hcu

/-- C9, witness: a concrete one-series run returns the SUCCESS envelope
with no error and a populated figure handle. -/
theorem c9_success_envelope_witness :
    plot_trading_history dfA (some "close") none none none none none none none
        "date" "-" none none false true false
      = Except.ok outC9 ∧
    (outC9.env.status = Status.SUCCESS ∧ outC9.env.status ≠ Status.NOT_RUN ∧
     outC9.env.status ≠ Status.FAILED ∧ outC9.env.err = none ∧
     outC9.env.fig ≠ none) :=
  ⟨rfl, c9_success_envelope dfA (some "close") none none none none none none none
    "date" "-" none none false true false outC9 rfl⟩

theorem mkAxis_ok_idx {u : DataFrame} {dc ls : String} {sy : Bool} {i : Nat}
    {n : PlotNode} {a : AxisHandle}
    (h : mkAxis u dc ls sy i n = Except.ok a) : a.idx = i := by
  unfold mkAxis at h
  cases h1 : colIdxE u dc with
  | error e =>
    rw [h1, exceptBind_err] at h
    exact Except.noConfusion h
  | ok k =>
    rw [h1, exceptBind_ok] at h
    cases h2 : colIdxE u n.column with
    | error e =>
      rw [h2, exceptBind_err] at h
      exact Except.noConfusion h
    | ok j =>
      rw [h2, exceptBind_ok, exceptPure] at h
      injection h with h
      subst h
      rfl

theorem exceptMap_ok {α β : Type} (f : α → β) (a : α) :
    (Except.ok a : Except String α).map f = Except.ok (f a) := rfl

theorem exceptMap_err {α β : Type} (f : α → β) (e : String) :
    (Except.error e : Except String α).map f = Except.error e := rfl

theorem mkAxis_true (u : DataFrame) (dc ls : String) (i : Nat) (n : PlotNode) :
    mkAxis u dc ls true i n = (mkAxis u dc ls false i n).map scaleAxByIdx := by
  unfold mkAxis
  cases h1 : colIdxE u dc with
  | error e => rw [exceptBind_err, exceptBind_err, exceptMap_err]
  | ok k =>
    rw [exceptBind_ok, exceptBind_ok]
    cases h2 : colIdxE u n.column with
    | error e => rw [exceptBind_err, exceptBind_err, exceptMap_err]
    | ok j =>
      rw [exceptBind_ok, exceptBind_ok, exceptPure, exceptPure, exceptMap_ok]
      rcases Nat.eq_zero_or_pos i with hi | hi
      · subst hi
        simp [scaleAxByIdx]
      · simp [scaleAxByIdx, hi, Nat.pos_iff_ne_zero.mp hi]

theorem composeAxesFrom_true (u : DataFrame) (dc ls : String) :
    ∀ (nodes : List PlotNode) (i : Nat),
      composeAxesFrom u dc ls true i nodes
        = (composeAxesFrom u dc ls false i nodes).map (List.map scaleAxByIdx) := by
  intro nodes
  induction nodes with
  | nil => intro i; rfl
  | cons n rest ih =>
    intro i
    simp only [composeAxesFrom]
    rw [mkAxis_true]
    cases hm : mkAxis u dc ls false i n with
    | error e => rw [exceptMap_err, exceptBind_err, exceptBind_err, exceptMap_err]
    | ok a =>
      rw [exceptMap_ok, exceptBind_ok, exceptBind_ok, ih]
      cases hr : composeAxesFrom u dc ls false (i + 1) rest with
      | error e => rw [exceptMap_err, exceptBind_err, exceptBind_err, exceptMap_err]
      | ok tl =>
        rw [exceptMap_ok, exceptBind_ok, exceptBind_ok, exceptPure, exceptPure,
          exceptMap_ok]
        rfl

theorem composeAxesFrom_idx (u : DataFrame) (dc ls : String) (sy : Bool) :
    ∀ (nodes : List PlotNode) (i : Nat) (axes : List AxisHandle),
      composeAxesFrom u dc ls sy i nodes = Except.ok axes →
      ∀ (j : Nat) (a : AxisHandle), axes[j]? = some a → a.idx = i + j := by
  intro nodes
  induction nodes with
  | nil =>
    intro i axes h j a hj
    injection h with h
    subst h
    simp at hj
  | cons n rest ih =>
    intro i axes h j a hj
    simp only [composeAxesFrom] at h
    cases hm : mkAxis u dc ls sy i n with
    | error e =>
      rw [hm, exceptBind_err] at h
      exact Except.noConfusion h
    | ok a0 =>
      rw [hm, exceptBind_ok] at h
      cases hr : composeAxesFrom u dc ls sy (i + 1) rest with
      | error e =>
        rw [hr, exceptBind_err] at h
        exact Except.noConfusion h
      | ok tl =>
        rw [hr, exceptBind_ok, exceptPure] at h
        injection h with h
        subst h
        cases j with
        | zero =>
          simp at hj
          subst hj
          have h0 := mkAxis_ok_idx hm
          omega
        | succ j2 =>
          have h1 := ih (i + 1) tl hr j2 a (by simpa using hj)
          omega

/-- C7: for identical inputs, the run with `scale_y` set and the run
with it unset succeed together and produce the same number of axes; the
primary axis (index 0) has identical y-limits in both runs, and every
secondary axis's upper y-limit with the flag set equals 3 times the
upper y-limit the same axis has with the flag unset (lines 252-255 remap
a secondary axis's limits to `[0, upper * 3]` only when `scale_y`). -/
theorem c7_scale_y_triples_secondary_upper (u : DataFrame) (dc ls : String)
    (nodes : List PlotNode) (axT axF : List AxisHandle)
    (hT : composeAxes u dc ls true nodes = Except.ok axT)
    (hF : composeAxes u dc ls false nodes = Except.ok axF) :
    axT.length = axF.length ∧
    (∀ a a', axT[0]? = some a → axF[0]? = some a' → a.ylim = a'.ylim) ∧
    (∀ i a a', 0 < i → axT[i]? = some a → axF[i]? = some a' →
      a.ylim.2 = 3 * a'.ylim.2) := by
  have hmap : axT = axF.map scaleAxByIdx := by
    rw [composeAxes] at hT hF
    rw [composeAxesFrom_true u dc ls nodes 0, hF, exceptMap_ok] at hT
    injection hT with hT
    exact hT.symm
  subst hmap
  refine ⟨by simp, ?_, ?_⟩
  · intro a a' h1 h2
    simp only [List.getElem?_map, h2, Option.map_some'] at h1
    injection h1 with h1
    have hidx : a'.idx = 0 + 0 :=
      composeAxesFrom_idx u dc ls false nodes 0 axF hF 0 a' h2
    rw [← h1]
    simp [scaleAxByIdx, hidx]
  · intro i a a' hi h1 h2
    simp only [List.getElem?_map, h2, Option.map_some'] at h1
    injection h1 with h1
    have hidx : a'.idx = 0 + i :=
      composeAxesFrom_idx u dc ls false nodes 0 axF hF i a' h2
    rw [← h1]
    simp only [scaleAxByIdx]
    rw [if_pos (by omega)]

/-- C7, witness: the concrete two-series run over `dfA` — the secondary
axis's upper limit is 900 with the flag and 300 without, the primary
axis keeps (10, 30) in both runs. -/
theorem c7_scale_y_triples_secondary_upper_witness :
    composeAxes dfA "date" "-" true nodesW = Except.ok axsWT ∧
    composeAxes dfA "date" "-" false nodesW = Except.ok axsWF ∧
    (axsWT.length = axsWF.length ∧
     (∀ a a', axsWT[0]? = some a → axsWF[0]? = some a' → a.ylim = a'.ylim) ∧
     (∀ i a a', 0 < i → axsWT[i]? = some a → axsWF[i]? = some a' →
       a.ylim.2 = 3 * a'.ylim.2)) :=
  ⟨rfl, rfl,
   c7_scale_y_triples_secondary_upper dfA "date" "-" nodesW axsWT axsWF rfl rfl⟩

/-- C10: when `scale_y` is set, a secondary axis's y-limits are exactly
`(0, 3 * auto_upper)` — the lower bound is forced to 0 no matter what
the auto-computed lower limit was (here related to the unscaled run of
the same axis, whose limits are the auto-computed ones). -/
theorem c10_scaled_ylim_zero_lower (u : DataFrame) (dc ls : String) (i : Nat)
    (n : PlotNode) (a a' : AxisHandle) (hi : 0 < i)
    (hT : mkAxis u dc ls true i n = Except.ok a)
    (hF : mkAxis u dc ls false i n = Except.ok a') :
    a.ylim = (0, 3 * a'.ylim.2) := by
  rw [mkAxis_true, hF, exceptMap_ok] at hT
  injection hT with hT
  have hidx : a'.idx = i := mkAxis_ok_idx hF
  rw [← hT]
  simp [scaleAxByIdx, hidx, hi]

/-- C10, witness: over `dfNeg` the unscaled secondary axis has limits
(-5, 10); with `scale_y` the same axis gets (0, 30) — the lower bound is
0 even though the auto-computed lower bound was negative. -/
theorem c10_scaled_ylim_zero_lower_witness :
    0 < 1 ∧
    mkAxis dfNeg "date" "-" true 1 { column := "x", color := "c" }
      = Except.ok axN10T ∧
    mkAxis dfNeg "date" "-" false 1 { column := "x", color := "c" }
      = Except.ok axN10F ∧
    axN10T.ylim = (0, 3 * axN10F.ylim.2) :=
  ⟨by decide, rfl, rfl,
   c10_scaled_ylim_zero_lower dfNeg "date" "-" 1 { column := "x", color := "c" }
     axN10T axN10F (by decide) rfl rfl⟩

theorem findCol_cons_self (dc : String) (rest : List String) :
    findCol (dc :: rest) dc = some 0 := by
  simp [findCol]

theorem cellAt_of_findCol {d : DataFrame} {dc : String} {j : Nat}
    (hfind : findCol d.cols dc = some j) (cells : List Cell) :
    d.cellAt dc cells = cells.getD j Cell.na := by
  unfold DataFrame.cellAt
  rw [hfind]

theorem colIdxsE_cons_none {cols : List String} {c : String} {rest : List String}
    (hf : findCol cols c = none) :
    colIdxsE cols (c :: rest) = Except.error ("KeyError: " ++ c) := by
  simp only [colIdxsE, hf]

theorem colIdxsE_cons_some {cols : List String} {c : String} {rest : List String}
    {i : Nat} (hf : findCol cols c = some i) :
    colIdxsE cols (c :: rest) = (colIdxsE cols rest).map (fun is => i :: is) := by
  simp only [colIdxsE, hf]

theorem colIdxsE_cons_ok {cols : List String} {c : String} {rest : List String}
    {l : List Nat} (h : colIdxsE cols (c :: rest) = Except.ok l) :
    ∃ i is, findCol cols c = some i ∧ colIdxsE cols rest = Except.ok is ∧
      l = i :: is := by
  cases hf : findCol cols c with
  | none =>
    rw [colIdxsE_cons_none hf] at h
    exact Except.noConfusion h
  | some i =>
    rw [colIdxsE_cons_some hf] at h
    cases hr : colIdxsE cols rest with
    | error e =>
      rw [hr, exceptMap_err] at h
      exact Except.noConfusion h
    | ok is2 =>
      rw [hr, exceptMap_ok] at h
      injection h with h
      exact ⟨i, is2, rfl, rfl, h.symm⟩

theorem select_ok_inv {df : DataFrame} {cs : List String} {u : DataFrame}
    (h : df.select cs = Except.ok u) :
    ∃ idxs, colIdxsE df.cols cs = Except.ok idxs ∧
      u = { cols := cs
            rows := df.rows.map (fun r =>
              (r.1, idxs.map (fun j => r.2.getD j Cell.na))) } := by
  unfold DataFrame.select at h
  cases hx : colIdxsE df.cols cs with
  | error e =>
    rw [hx, exceptMap_err] at h
    exact Except.noConfusion h
  | ok idxs =>
    rw [hx, exceptMap_ok] at h
    injection h with h
    exact ⟨idxs, rfl, h.symm⟩

theorem filterDateGE_dateLB {df F : DataFrame} {dc : String} {v : Int}
    (h : df.filterDateGE dc v = Except.ok F) : dateLB v dc F := by
  unfold DataFrame.filterDateGE at h
  cases hj : colIdxE df dc with
  | error e =>
    rw [hj, exceptMap_err] at h
    exact Except.noConfusion h
  | ok j =>
    rw [hj, exceptMap_ok] at h
    have hfind : findCol df.cols dc = some j := by
      unfold colIdxE at hj
      cases hf : findCol df.cols dc with
      | none =>
        rw [hf] at hj
        exact Except.noConfusion hj
      | some j2 =>
        rw [hf] at hj
        injection hj with hj
        rw [hj]
    injection h with h
    intro row hrow
    rw [← h] at hrow
    rcases List.mem_filter.mp hrow with ⟨hin, hcond⟩
    cases hc : row.2.getD j Cell.na with
    | na =>
      rw [hc] at hcond
      simp [cellGE] at hcond
    | val x =>
      rw [hc] at hcond
      refine ⟨x, ?_, by simpa [cellGE] using hcond⟩
      have hcols : F.cols = df.cols := by rw [← h]
      have hfind2 : findCol F.cols dc = some j := by
        rw [hcols]
        exact hfind
      rw [cellAt_of_findCol hfind2]
      exact hc

theorem select_to_cons_dateLB {w u : DataFrame} {dc : String} {rest : List String}
    {v : Int} (hP : dateLB v dc w)
    (h : w.select (dc :: rest) = Except.ok u) : dateLB v dc u := by
  rcases select_ok_inv h with ⟨idxs, hidxs, hu⟩
  rcases colIdxsE_cons_ok hidxs with ⟨i0, is0, hfind0, his, hl⟩
  subst hl
  intro row hrow
  rw [hu] at hrow
  rcases List.mem_map.mp hrow with ⟨rr, hrr, hre⟩
  rcases hP rr hrr with ⟨x, hx, hvx⟩
  have hx2 : rr.2.getD i0 Cell.na = Cell.val x := by
    rw [cellAt_of_findCol hfind0] at hx
    exact hx
  refine ⟨x, ?_, hvx⟩
  have hfindu : findCol u.cols dc = some 0 := by
    rw [hu]
    exact findCol_cons_self dc rest
  rw [cellAt_of_findCol hfindu]
  rw [← hre]
  simpa using hx2

theorem dateLB_applyMask {v : Int} {dc : String} {m : List Bool} {d : DataFrame}
    (h : dateLB v dc d) : dateLB v dc (d.applyMask m) := by
  intro row hrow
  exact h row (List.mem_filter.mp hrow).1

theorem dateLB_dropna {v : Int} {dc : String} {d : DataFrame}
    (h : dateLB v dc d) : dateLB v dc d.dropna := by
  intro row hrow
  exact h row (List.mem_filter.mp hrow).1

theorem startDateStep_dateLB {df u : DataFrame} {dc : String} {rest : List String}
    {v : Int} (h : startDateStep df dc (dc :: rest) v = Except.ok u) :
    dateLB v dc u := by
  unfold startDateStep at h
  cases hF : df.filterDateGE dc v with
  | error e =>
    rw [hF, exceptBind_err] at h
    exact Except.noConfusion h
  | ok F =>
    rw [hF, exceptBind_ok] at h
    exact select_to_cons_dateLB (filterDateGE_dateLB hF) h

theorem startStep_some (df : DataFrame) (dc : String) (cl : List String)
    (s : String) :
    startStep df dc cl (some s)
      = parseTickDate s >>= fun v => startDateStep df dc cl v := rfl

theorem maskStep_none (u0 : DataFrame) (cl : List String) :
    maskStep u0 cl none = Except.ok u0 := rfl

theorem maskStep_some (u0 : DataFrame) (cl : List String) (f : DfFilter) :
    maskStep u0 cl (some f)
      = if f.has_to_json then (u0.applyMask f.mask).select cl else pure u0 := rfl

theorem maskStep_dateLB {u0 u1 : DataFrame} {dc : String} {rest : List String}
    {flt : Option DfFilter} {v : Int}
    (hP : dateLB v dc u0)
    (hm : maskStep u0 (dc :: rest) flt = Except.ok u1) : dateLB v dc u1 := by
  cases flt with
  | none =>
    rw [maskStep_none] at hm
    injection hm with hm
    subst hm
    exact hP
  | some f =>
    rw [maskStep_some] at hm
    cases hb : f.has_to_json with
    | false =>
      simp only [hb, Bool.false_eq_true, if_false] at hm
      rw [exceptPure] at hm
      injection hm with hm
      subst hm
      exact hP
    | true =>
      simp only [hb, eq_self_iff_true, if_true] at hm
      exact select_to_cons_dateLB (dateLB_applyMask hP) hm

theorem dropnaStep_dateLB {u1 : DataFrame} {dn : Bool} {v : Int} {dc : String}
    (hP : dateLB v dc u1) : dateLB v dc (dropnaStep u1 dn) := by
  unfold dropnaStep
  cases dn with
  | false =>
    simp only [Bool.false_eq_true, if_false]
    exact hP
  | true =>
    simp only [eq_self_iff_true, if_true]
    exact dateLB_dropna hP

/-- C6: whenever a start date is supplied and the filtering pipeline of
lines 176-205 succeeds, every row of its output carries a present date
value at or after the parsed start date, whatever optional predicate or
drop-incomplete-rows flag is also applied — the cutoff runs first and
the later steps only discard rows. -/
theorem c6_start_date_lower_bound (df : DataFrame) (dateCol s : String)
    (r b g o : Option String) (flt : Option DfFilter) (dn : Bool)
    (v : Int) (out : DataFrame)
    (hv : parseTickDate s = Except.ok v)
    (h : filterPipeline df dateCol (buildColumnList dateCol r b g o) (some s)
        flt dn = Except.ok out) :
    ∀ row ∈ out.rows, ∃ x : Int,
      out.cellAt dateCol row.2 = Cell.val x ∧ v ≤ x := by
  have hLB : dateLB v dateCol out := by
    simp only [filterPipeline] at h
    rw [startStep_some] at h
    rw [hv, exceptBind_ok] at h
    cases hs0 : startDateStep df dateCol (buildColumnList dateCol r b g o) v with
    | error e =>
      rw [hs0, exceptBind_err] at h
      exact Except.noConfusion h
    | ok u0 =>
      rw [hs0, exceptBind_ok] at h
      have hs0' : startDateStep df dateCol (dateCol :: selectedCols r b g o) v
          = Except.ok u0 := hs0
      have hP0 := startDateStep_dateLB hs0'
      cases hm : maskStep u0 (buildColumnList dateCol r b g o) flt with
      | error e =>
        rw [hm, exceptBind_err] at h
        exact Except.noConfusion h
      | ok u1 =>
        rw [hm, exceptBind_ok, exceptPure] at h
        injection h with h
        subst h
        have hm' : maskStep u0 (dateCol :: selectedCols r b g o) flt
            = Except.ok u1 := hm
        exact dropnaStep_dateLB (maskStep_dateLB hP0 hm')
  exact hLB

/-- C6, witness: filtering `dfC6` by `2020-01-05 00:00:00` keeps exactly
the two rows at or after the parsed cutoff. -/
theorem c6_start_date_lower_bound_witness :
    parseTickDate "2020-01-05 00:00:00" = Except.ok 72606844800 ∧
    filterPipeline dfC6 "date" (buildColumnList "date" (some "close") none none none)
        (some "2020-01-05 00:00:00") none false = Except.ok dfC6out ∧
    ∀ row ∈ dfC6out.rows, ∃ x : Int,
      dfC6out.cellAt "date" row.2 = Cell.val x ∧ (72606844800 : Int) ≤ x :=
  ⟨rfl, rfl,
   c6_start_date_lower_bound dfC6 "date" "2020-01-05 00:00:00" (some "close")
     none none none none false 72606844800 dfC6out rfl rfl⟩

end PlotTradingHistory
